import Mathlib

/-!
Shallow embedding of `src/server.js` (tg_send): the validation, sanitization,
message-formatting, delivery and rate-limiting pipeline shared by the five
submission endpoints, together with proofs of the specification claims.

External collaborators (the `validator` phone-check library and the `xss`
markup neutralizer) are modelled as parameters of the functions that call
them; the `express-rate-limit` middleware, which is configured but not shipped
in `src/`, is modelled from the spec.
-/

namespace TgSend

/-- A JavaScript value, as far as the request bodies of this server are
concerned: request fields are `undefined` (absent), `null`, booleans, numbers
or strings. -/
inductive JSValue where
  | undef
  | null
  | boolV (b : Bool)
  | numV (n : Int)
  | str (s : String)
deriving DecidableEq, Repr

/-- JavaScript truthiness for the values of `JSValue`: `undefined`, `null`,
`false`, `0` and `""` are falsy, everything else truthy. -/
def jsTruthy : JSValue → Bool
  | .undef => false
  | .null => false
  | .boolV b => b
  | .numV n => decide (n ≠ 0)
  | .str s => decide (s ≠ "")

/-- `typeof v === 'string'`. -/
def isStringV : JSValue → Bool
  | .str _ => true
  | _ => false

/-- The whitespace class used by JavaScript `String.prototype.trim` and the
regex class `\s`, restricted to the core ASCII whitespace characters. -/
def isJsWs (c : Char) : Bool :=
  c = ' ' || c = '\t' || c = '\n' || c = '\r' || c = '\x0b' || c = '\x0c'

/-- Remove leading and trailing whitespace from a character list
(`String.prototype.trim`). -/
def trimCharList (l : List Char) : List Char :=
  ((l.dropWhile isJsWs).reverse.dropWhile isJsWs).reverse

/-- `s.trim()` on strings. -/
def jsTrim (s : String) : String :=
  ⟨trimCharList s.data⟩

/-- JavaScript `s.length`: the number of UTF-16 code units of the string. -/
def jsLength (s : String) : Nat :=
  (s.data.map (fun c => if c.val ≥ 0x10000 then 2 else 1)).sum

/-- `phone.replace(/[^\d]/g, '').length`: the number of decimal digits. -/
def digitCount (s : String) : Nat :=
  (s.data.filter Char.isDigit).length

/-- `phone.replace(/[^\d+]/g, '')`: keep only digits and `+`. -/
def cleanPhone (s : String) : String :=
  ⟨s.data.filter (fun c => c.isDigit || c = '+')⟩

/-- One character of the name whitelist `/^[a-zA-Zа-яА-ЯёЁ\s-]+$/`. -/
def isNameChar (c : Char) : Bool :=
  (('a' ≤ c && c ≤ 'z') || ('A' ≤ c && c ≤ 'Z') ||
   ('а' ≤ c && c ≤ 'я') || ('А' ≤ c && c ≤ 'Я') ||
   c = 'ё' || c = 'Ё' || isJsWs c || c = '-')

/-- `/^[a-zA-Zа-яА-ЯёЁ\s-]+$/.test(s)`. -/
def nameRegexTest (s : String) : Bool :=
  !s.data.isEmpty && s.data.all isNameChar

/-- JavaScript `a || b` on strings: `b` when `a` is the empty string. -/
def strOr (a b : String) : String :=
  if a = "" then b else a

/-- Truthiness of a `process.env` value (`string | undefined`): a present,
non-empty string. -/
def optTruthy : Option String → Bool
  | none => false
  | some s => decide (s ≠ "")

/-- A raw request body, restricted to the fields the five handlers read. -/
structure RawData where
  name : JSValue := .undef
  phone : JSValue := .undef
  address : JSValue := .undef
  selectedTariff : JSValue := .undef
  tariff : JSValue := .undef
  comment : JSValue := .undef
deriving DecidableEq, Repr

/-! ## Validator (`validateSubmissionData`, src/server.js:45-88)

The body of each field check appends its violation to the accumulator
`errors`, exactly as the source pushes into the `errors` array. The external
`validator.isMobilePhone(·, 'any', {strictMode:false})` test is a parameter
`isMob`. -/

/-- The `name` block of `validateSubmissionData`. -/
def checkName (errors : List String) (name : JSValue) : List String :=
  if !jsTruthy name || !isStringV name then
    errors ++ ["Имя обязательно для заполнения"]
  else match name with
    | .str s =>
      if jsLength s < 2 || jsLength s > 50 then
        errors ++ ["Имя должно быть от 2 до 50 символов"]
      else if !nameRegexTest s then
        errors ++ ["Имя содержит недопустимые символы"]
      else errors
    | _ => errors

/-- The `phone` block of `validateSubmissionData`. -/
def checkPhone (isMob : String → Bool) (errors : List String) (phone : JSValue) :
    List String :=
  if !jsTruthy phone || !isStringV phone then
    errors ++ ["Номер телефона обязателен"]
  else match phone with
    | .str s =>
      if !isMob (cleanPhone s) then
        errors ++ ["Некорректный номер телефона"]
      else errors
    | _ => errors

/-- The `address` block of `validateSubmissionData`. -/
def checkAddress (errors : List String) (address : JSValue) : List String :=
  if !jsTruthy address || !isStringV address then
    errors ++ ["Адрес обязателен для заполнения"]
  else match address with
    | .str s =>
      if jsLength s < 5 || jsLength s > 200 then
        errors ++ ["Адрес должен быть от 5 до 200 символов"]
      else errors
    | _ => errors

/-- The `selectedTariff` block of `validateSubmissionData`: only truthiness is
checked (the allow-list is commented out in the source). -/
def checkTariff (errors : List String) (tariff : JSValue) : List String :=
  if !jsTruthy tariff then errors ++ ["Выберите корректный тариф"] else errors

/-- The `comment` block of `validateSubmissionData`. -/
def checkComment (errors : List String) (comment : JSValue) : List String :=
  if jsTruthy comment && isStringV comment &&
      (match comment with | .str s => decide (jsLength s > 500) | _ => false) then
    errors ++ ["Комментарий не должен превышать 500 символов"]
  else errors

/-- `validateSubmissionData` (src/server.js:45-88): the five field blocks run
in sequence on the shared `errors` accumulator. -/
def validateSubmissionData (isMob : String → Bool) (data : RawData) : List String :=
  checkComment
    (checkTariff
      (checkAddress
        (checkPhone isMob (checkName [] data.name) data.phone)
        data.address)
      data.selectedTariff)
    data.comment

/-! ## Sanitizer (`sanitizeData`, src/server.js:91-99)

The `xss` markup neutralizer is an external library, modelled as a parameter
`xssF : String → String`; on a falsy argument the library coerces it to the
empty string before filtering, so `xss(undefined)` is modelled as `xssF ""`.
Calling `.trim()` on a truthy non-string value raises a `TypeError`; this is
modelled with `Except`, the error carrying the would-be exception text. -/

/-- `xss(v?.trim())`: optional chaining yields `undefined` on `undefined` and
`null` (which `xss` coerces to `""`), trims strings, and raises a `TypeError`
on any other value. -/
def xssOptTrim (xssF : String → String) : JSValue → Except String String
  | .undef => .ok (xssF "")
  | .null => .ok (xssF "")
  | .str s => .ok (xssF (jsTrim s))
  | _ => .error "TypeError: trim is not a function"

/-- `data.comment ? xss(data.comment.trim()) : ''`: falsy comments become
`''`; a truthy non-string comment raises a `TypeError` from `.trim()`. -/
def xssComment (xssF : String → String) : JSValue → Except String String
  | .str s => if s = "" then .ok "" else .ok (xssF (jsTrim s))
  | .undef => .ok ""
  | .null => .ok ""
  | .boolV b => if b then .error "TypeError: trim is not a function" else .ok ""
  | .numV n => if n = 0 then .ok "" else .error "TypeError: trim is not a function"

/-- The sanitized record produced by `sanitizeData`. -/
structure CleanData where
  name : String
  phone : String
  address : String
  selectedTariff : String
  comment : String
deriving DecidableEq, Repr

/-- `sanitizeData` (src/server.js:91-99). The record fields are evaluated in
source order; the first `TypeError` aborts the construction. -/
def sanitizeData (xssF : String → String) (data : RawData) : Except String CleanData := do
  let name ← xssOptTrim xssF data.name
  let phone ← xssOptTrim xssF data.phone
  let address ← xssOptTrim xssF data.address
  let selectedTariff ← xssOptTrim xssF data.selectedTariff
  let comment ← xssComment xssF data.comment
  pure { name := name, phone := phone, address := address,
         selectedTariff := selectedTariff, comment := comment }

/-- Re-read a sanitized record as a raw request body (all fields are strings;
this is what feeding `sanitizeData`'s output back to it means). -/
def CleanData.toRaw (c : CleanData) : RawData :=
  { name := .str c.name, phone := .str c.phone, address := .str c.address,
    selectedTariff := .str c.selectedTariff, comment := .str c.comment }

/-! ## Message formatting

Each endpoint builds a template-literal message and calls `.trim()` on it.
The server-generated timestamp `new Date().toLocaleString('ru-RU')` is a
parameter `now`. -/

/-- The `submit-application` message template (src/server.js:110-118),
including the `.trim()` call and the `${data.comment || "Нет"}` fallback. -/
def formatMessage (c : CleanData) (now : String) : String :=
  jsTrim ("\n📥 Новая заявка на подключение:\n👤 Имя: " ++ c.name ++
    "\n📱 Номер: " ++ c.phone ++ "\n🏠 Адрес: " ++ c.address ++
    "\n📶 Тариф: " ++ c.selectedTariff ++ "\n📝 Комментарий: " ++
    strOr c.comment "Нет" ++ "\n🕐 Время: " ++ now ++ "\n  ")

/-- The `request-callback` message (src/server.js:199), no trim. -/
def formatCallbackMessage (phone : String) : String :=
  "📞 Новый запрос на звонок!\n\nТелефон: " ++ phone

/-- The `request-ngn-callback` message template (src/server.js:260-265); the
source lines inside the template literal are indented by two spaces. -/
def formatNgnMessage (phone tariffV now : String) : String :=
  jsTrim ("\n  📞 Заявка на обратный звонок NGN!\n  📱 Номер: " ++ phone ++
    "\n  📌 Тариф: " ++ tariffV ++ "\n  🕐 Время: " ++ now ++ "\n  ")

/-- The `request-wimax` message template (src/server.js:320-325). -/
def formatWimaxMessage (name phone now : String) : String :=
  jsTrim ("\n  ✉️ Новый запрос WiMAX!\n  👤 Имя: " ++ name ++
    "\n  ☎️ Телефон: " ++ phone ++ "\n  🕐 Время: " ++ now ++ "\n  ")

/-- The sanitized record of `submit-connection-request` (src/server.js:383-389). -/
structure ConnCleanData where
  name : String
  phone : String
  address : String
  tariff : String
  comment : String
deriving DecidableEq, Repr

/-- The `submit-connection-request` message template (src/server.js:401-409). -/
def formatConnMessage (c : ConnCleanData) (now : String) : String :=
  jsTrim ("\n  📥 Новая заявка на подключение:\n  👤 Имя: " ++ c.name ++
    "\n  📱 Номер: " ++ c.phone ++ "\n  🏠 Адрес: " ++ c.address ++
    "\n  📶 Тариф: " ++ c.tariff ++ "\n  📝 Комментарий: " ++ c.comment ++
    "\n  🕐 Время: " ++ now ++ "\n  ")

/-! ## Transport and delivery-error details

The outcome of the single `fetch` to the Telegram API is a parameter: either
a 2xx response, a non-2xx response whose JSON body optionally carries a
`description` string, or a network-level failure. -/

/-- Result of the one outbound `fetch` per handler call. -/
inductive Transport where
  | success
  | httpError (description : Option String)
  | network (msg : String)
deriving DecidableEq, Repr

/-- Detail thrown by `sendToTelegram` on a non-ok response
(src/server.js:134): backtick template with `errorData.description || 'Unknown error'`. -/
def sendToTelegramDetail (d : Option String) : String :=
  "Telegram API error: " ++ (match d with
    | some s => strOr s "Unknown error"
    | none => "Unknown error")

/-- Detail thrown in the `request-callback` handler (src/server.js:214):
the template interpolates `errorData.description` directly, so an absent
field is coerced to the text `undefined`. -/
def requestCallbackDetail (d : Option String) : String :=
  "Telegram API error: " ++ (match d with
    | some s => s
    | none => "undefined")

/-- Detail thrown in the `request-ngn-callback` handler (src/server.js:280):
`err.description || 'Telegram API error'`. -/
def ngnDetail (d : Option String) : String :=
  match d with
  | some s => strOr s "Telegram API error"
  | none => "Telegram API error"

/-- Detail thrown in the `request-wimax` handler (src/server.js:340). -/
def wimaxDetail (d : Option String) : String :=
  match d with
  | some s => strOr s "Telegram API error"
  | none => "Telegram API error"

/-- Detail thrown in the `submit-connection-request` handler
(src/server.js:424): `err.description || 'Ошибка Telegram API'`. -/
def connDetail (d : Option String) : String :=
  match d with
  | some s => strOr s "Ошибка Telegram API"
  | none => "Ошибка Telegram API"

/-- The process-wide messaging configuration (`TELEGRAM_BOT_TOKEN`,
`TELEGRAM_CHAT_ID`): `process.env` values are strings or absent. -/
structure Config where
  botToken : Option String
  chatId : Option String
deriving DecidableEq, Repr

/-- The `!botToken || !chatId` guard appearing in every delivery path. -/
def Config.unconfigured (cfg : Config) : Bool :=
  !optTruthy cfg.botToken || !optTruthy cfg.chatId

/-- `sendToTelegram` (src/server.js:102-138): throws before any fetch when the
credentials are missing; otherwise formats the message and performs exactly
one fetch, throwing `sendToTelegramDetail` on a non-ok response. The second
component lists the message texts actually handed to `fetch`. -/
def sendToTelegram (cfg : Config) (tr : Transport) (now : String) (c : CleanData) :
    Except String Unit × List String :=
  if cfg.unconfigured then (.error "Telegram credentials not configured", [])
  else
    let message := formatMessage c now
    match tr with
    | .success => (.ok (), [message])
    | .httpError d => (.error (sendToTelegramDetail d), [message])
    | .network e => (.error e, [message])

/-! ## Responses and handlers -/

/-- The JSON-shaped terminal responses of the handlers. -/
inductive Response where
  | badRequest (error : String) (details : List String)
  | serverError (error : String)
  | okResp (message : String)
  | rateLimited (error : String)
  | internalError (error : String)
deriving DecidableEq, Repr

/-- HTTP status of a response. -/
def Response.statusOf : Response → Nat
  | .badRequest _ _ => 400
  | .serverError _ => 500
  | .okResp _ => 200
  | .rateLimited _ => 429
  | .internalError _ => 500

/-- The `success` field of a response body (absent fields read as `false`). -/
def Response.successOf : Response → Bool
  | .okResp _ => true
  | _ => false

/-- What one handler invocation produced: its response, the list of message
texts handed to `fetch`, and the detail of the exception it caught, if any. -/
structure HandlerOut where
  resp : Response
  sends : List String
  thrown : Option String
deriving DecidableEq, Repr

/-- The `submit-application` handler body (src/server.js:141-175): validate,
sanitize, deliver, with the whole body inside one `try/catch` whose `catch`
answers the generic 500. -/
def submitApplicationHandler (isMob : String → Bool) (xssF : String → String)
    (cfg : Config) (tr : Transport) (now : String) (body : RawData) : HandlerOut :=
  let validationErrors := validateSubmissionData isMob body
  if !validationErrors.isEmpty then
    ⟨.badRequest "Ошибка валидации данных" validationErrors, [], none⟩
  else
    match sanitizeData xssF body with
    | .error e =>
      ⟨.serverError "Произошла ошибка при отправке заявки. Попробуйте позже.", [], some e⟩
    | .ok c =>
      match sendToTelegram cfg tr now c with
      | (.ok _, msgs) => ⟨.okResp "Заявка успешно отправлена!", msgs, none⟩
      | (.error e, msgs) =>
        ⟨.serverError "Произошла ошибка при отправке заявки. Попробуйте позже.", msgs, some e⟩

/-- The `request-callback` handler (src/server.js:177-226): phone gate,
sanitize, config gate, one fetch inside `try/catch`. -/
def requestCallbackHandler (xssF : String → String) (cfg : Config) (tr : Transport)
    (body : RawData) : HandlerOut :=
  match body.phone with
  | .str s =>
    if s = "" || digitCount s < 9 then
      ⟨.badRequest "Введите корректный номер телефона" [], [], none⟩
    else
      let sanitizedPhone := xssF (jsTrim s)
      if cfg.unconfigured then
        ⟨.serverError "Не настроены Telegram данные", [], none⟩
      else
        let message := formatCallbackMessage sanitizedPhone
        match tr with
        | .success => ⟨.okResp "Заявка отправлена!", [message], none⟩
        | .httpError d =>
          ⟨.serverError "Ошибка при отправке в Telegram", [message],
            some (requestCallbackDetail d)⟩
        | .network e => ⟨.serverError "Ошибка при отправке в Telegram", [message], some e⟩
  | _ => ⟨.badRequest "Введите корректный номер телефона" [], [], none⟩

/-- The `request-ngn-callback` handler (src/server.js:228-291): phone gate,
then tariff gate — each `return`s its single violation immediately — then
sanitize, config gate, one fetch. -/
def ngnHandler (xssF : String → String) (cfg : Config) (tr : Transport) (now : String)
    (body : RawData) : HandlerOut :=
  let phoneOk := match body.phone with
    | .str s => !(s = "" || digitCount s < 9)
    | _ => false
  if !phoneOk then ⟨.badRequest "Введите корректный номер телефона" [], [], none⟩
  else if !(jsTruthy body.selectedTariff && isStringV body.selectedTariff) then
    ⟨.badRequest "Выберите тариф" [], [], none⟩
  else
    match body.phone, body.selectedTariff with
    | .str p, .str t =>
      let sanitizedPhone := xssF (jsTrim p)
      let sanitizedTariff := xssF (jsTrim t)
      if cfg.unconfigured then
        ⟨.serverError "Telegram токен или ID не настроены", [], none⟩
      else
        let message := formatNgnMessage sanitizedPhone sanitizedTariff now
        match tr with
        | .success => ⟨.okResp "Заявка отправлена", [message], none⟩
        | .httpError d =>
          ⟨.serverError "Ошибка при отправке в Telegram", [message], some (ngnDetail d)⟩
        | .network e => ⟨.serverError "Ошибка при отправке в Telegram", [message], some e⟩
    | _, _ => ⟨.badRequest "Введите корректный номер телефона" [], [], none⟩

/-- The `request-wimax` handler (src/server.js:294-351): name gate, then phone
gate — each `return`s its single violation immediately — then sanitize,
config gate, one fetch. -/
def wimaxHandler (xssF : String → String) (cfg : Config) (tr : Transport) (now : String)
    (body : RawData) : HandlerOut :=
  let nameOk := match body.name with
    | .str s => !(s = "" || jsLength s < 2 || jsLength s > 50)
    | _ => false
  if !nameOk then ⟨.badRequest "Введите корректное имя" [], [], none⟩
  else
    let phoneOk := match body.phone with
      | .str s => !(s = "" || digitCount s < 9)
      | _ => false
    if !phoneOk then ⟨.badRequest "Введите корректный номер телефона" [], [], none⟩
    else
      match body.name, body.phone with
      | .str n, .str p =>
        let cleanName := xssF (jsTrim n)
        let cleanPhoneV := xssF (jsTrim p)
        if cfg.unconfigured then
          ⟨.serverError "Telegram токен или ID не настроены", [], none⟩
        else
          let message := formatWimaxMessage cleanName cleanPhoneV now
          match tr with
          | .success => ⟨.okResp "Заявка отправлена", [message], none⟩
          | .httpError d =>
            ⟨.serverError "Ошибка при отправке в Telegram", [message], some (wimaxDetail d)⟩
          | .network e => ⟨.serverError "Ошибка при отправке в Telegram", [message], some e⟩
      | _, _ => ⟨.badRequest "Введите корректное имя" [], [], none⟩

/-! ## `submit-connection-request` (src/server.js:354-432) -/

/-- The inline error collection of `submit-connection-request`
(src/server.js:357-373): every block appends to the shared `errors` array. -/
def connCheckName (errors : List String) (name : JSValue) : List String :=
  if !jsTruthy name || !isStringV name ||
      (match name with | .str s => decide (jsLength s < 2) || decide (jsLength s > 50) | _ => false) then
    errors ++ ["Некорректное имя"]
  else errors

/-- The `phone` block of the `submit-connection-request` validation. -/
def connCheckPhone (errors : List String) (phone : JSValue) : List String :=
  if !jsTruthy phone || !isStringV phone ||
      (match phone with | .str s => decide (digitCount s < 9) | _ => false) then
    errors ++ ["Некорректный номер телефона"]
  else errors

/-- The `address` block of the `submit-connection-request` validation. -/
def connCheckAddress (errors : List String) (address : JSValue) : List String :=
  if !jsTruthy address || !isStringV address ||
      (match address with | .str s => decide (jsLength s < 5) || decide (jsLength s > 200) | _ => false) then
    errors ++ ["Некорректный адрес"]
  else errors

/-- The `tariff` block of the `submit-connection-request` validation. -/
def connCheckTariff (errors : List String) (tariff : JSValue) : List String :=
  if !jsTruthy tariff || !isStringV tariff then errors ++ ["Тариф не выбран"] else errors

/-- The `comment` block of the `submit-connection-request` validation. -/
def connCheckComment (errors : List String) (comment : JSValue) : List String :=
  if jsTruthy comment && isStringV comment &&
      (match comment with | .str s => decide (jsLength s > 500) | _ => false) then
    errors ++ ["Комментарий слишком длинный"]
  else errors

/-- The full violation list collected by `submit-connection-request`. -/
def connErrors (body : RawData) : List String :=
  connCheckComment
    (connCheckTariff
      (connCheckAddress
        (connCheckPhone (connCheckName [] body.name) body.phone)
        body.address)
      body.tariff)
    body.comment

/-- The clean-up step of `submit-connection-request` (src/server.js:383-389):
after a passed validation all four required fields are strings; a truthy
non-string comment still faults in `comment.trim()`, which is uncaught and
lands in the express error handler. -/
def connClean (xssF : String → String) (body : RawData) : Except String ConnCleanData :=
  match body.name, body.phone, body.address, body.tariff with
  | .str n, .str p, .str a, .str t =>
    match xssComment xssF body.comment with
    | .error e => .error e
    | .ok cm =>
      .ok { name := xssF (jsTrim n), phone := xssF (jsTrim p), address := xssF (jsTrim a),
            tariff := xssF (jsTrim t), comment := if jsTruthy body.comment then cm else "нет" }
  | _, _, _, _ => .error "TypeError: trim is not a function"

/-- The `submit-connection-request` handler (src/server.js:354-432). -/
def submitConnectionHandler (xssF : String → String) (cfg : Config) (tr : Transport)
    (now : String) (body : RawData) : HandlerOut :=
  let errors := connErrors body
  if !errors.isEmpty then
    ⟨.badRequest "Ошибка валидации данных" errors, [], none⟩
  else
    match connClean xssF body with
    | .error e => ⟨.internalError "Internal server error", [], some e⟩
    | .ok c =>
      if cfg.unconfigured then
        ⟨.serverError "Telegram токен или чат-ID не настроены", [], none⟩
      else
        let message := formatConnMessage c now
        match tr with
        | .success => ⟨.okResp "Заявка отправлена", [message], none⟩
        | .httpError d =>
          ⟨.serverError "Ошибка отправки в Telegram", [message], some (connDetail d)⟩
        | .network e => ⟨.serverError "Ошибка отправки в Telegram", [message], some e⟩

/-! ## Rate limiting -/

/-- Modelled from the spec: the `express-rate-limit` middleware used by
`limiter` and `submitLimiter` (src/server.js:23-42) is an external dependency
whose implementation is not under `src/`. Per §3 (`RateLimitWindow`) and §4.5
of the spec, the limiter keeps a per-client-identity counter with a reset
timestamp; an entry whose window has elapsed is implicitly recreated on the
next request. Client identities are modelled as naturals, time in
milliseconds as a natural. -/
structure LimiterState where
  counts : Nat → Nat
  resetAt : Nat → Nat

/-- The all-expired initial limiter state. -/
def LimiterState.init : LimiterState :=
  { counts := fun _ => 0, resetAt := fun _ => 0 }

/-- Modelled from the spec: one request from identity `ip` at time `t`
through a limiter with window `w` and bound `max`. Expired entries restart at
zero with a fresh reset timestamp; every request (also a rejected one)
increments the counter; the request passes the gate iff the incremented
counter does not exceed `max`. -/
def limiterStep (w maxReq : Nat) (st : LimiterState) (t : Nat) (ip : Nat) :
    Bool × LimiterState :=
  let c := if st.resetAt ip ≤ t then 0 else st.counts ip
  let r := if st.resetAt ip ≤ t then t + w else st.resetAt ip
  (decide (c + 1 ≤ maxReq),
   { counts := fun j => if j = ip then c + 1 else st.counts j,
     resetAt := fun j => if j = ip then r else st.resetAt j })

/-- The general `/api/` policy (src/server.js:23-31): 15 minutes, max 5. -/
def generalWindow : Nat := 15 * 60 * 1000

/-- The submit policy (src/server.js:34-40): 60 minutes, max 3. -/
def submitWindow : Nat := 60 * 60 * 1000

/-- The middleware state in front of `/api/submit-application`: the general
limiter mounted on `/api/` and the route's own `submitLimiter`. -/
structure GateState where
  general : LimiterState
  submit : LimiterState

/-- The fresh middleware state. -/
def GateState.init : GateState :=
  { general := .init, submit := .init }

/-- What one request to the `/api/submit-application` route produced. -/
structure RouteOutcome where
  resp : Response
  validatorInvoked : Bool
  sends : List String
deriving Repr

/-- The `/api/submit-application` route (src/server.js:42 and 141): the
general limiter runs first, then `submitLimiter`, then the handler body. A
limiter that rejects answers its configured message immediately, so the
later middleware and the handler (validator, sanitizer, notifier) never run. -/
def submitApplicationRoute (isMob : String → Bool) (xssF : String → String)
    (cfg : Config) (tr : Transport) (now : String) (st : GateState) (t : Nat)
    (ip : Nat) (body : RawData) : GateState × RouteOutcome :=
  if !(limiterStep generalWindow 5 st.general t ip).1 then
    ({ general := (limiterStep generalWindow 5 st.general t ip).2, submit := st.submit },
     ⟨.rateLimited "Слишком много запросов, попробуйте позже", false, []⟩)
  else if !(limiterStep submitWindow 3 st.submit t ip).1 then
    ({ general := (limiterStep generalWindow 5 st.general t ip).2,
       submit := (limiterStep submitWindow 3 st.submit t ip).2 },
     ⟨.rateLimited "Превышен лимит заявок. Попробуйте через час.", false, []⟩)
  else
    ({ general := (limiterStep generalWindow 5 st.general t ip).2,
       submit := (limiterStep submitWindow 3 st.submit t ip).2 },
     ⟨(submitApplicationHandler isMob xssF cfg tr now body).resp, true,
      (submitApplicationHandler isMob xssF cfg tr now body).sends⟩)

/-! ## Helper lemmas: the validator accumulates -/

theorem checkName_append (e : List String) (v : JSValue) :
    checkName e v = e ++ checkName [] v := by
  unfold checkName
  repeat' split <;> first | rfl | simp | simp_all

theorem checkPhone_append (isMob : String → Bool) (e : List String) (v : JSValue) :
    checkPhone isMob e v = e ++ checkPhone isMob [] v := by
  unfold checkPhone
  repeat' split <;> first | rfl | simp | simp_all

theorem checkAddress_append (e : List String) (v : JSValue) :
    checkAddress e v = e ++ checkAddress [] v := by
  unfold checkAddress
  repeat' split <;> first | rfl | simp | simp_all

theorem checkTariff_append (e : List String) (v : JSValue) :
    checkTariff e v = e ++ checkTariff [] v := by
  unfold checkTariff
  split <;> simp

theorem checkComment_append (e : List String) (v : JSValue) :
    checkComment e v = e ++ checkComment [] v := by
  unfold checkComment
  split <;> simp

/-- `validateSubmissionData` is the concatenation, in field declaration
order, of five checks each depending only on its own field. -/
theorem validate_decomp (isMob : String → Bool) (d : RawData) :
    validateSubmissionData isMob d =
      checkName [] d.name ++ checkPhone isMob [] d.phone ++
      checkAddress [] d.address ++ checkTariff [] d.selectedTariff ++
      checkComment [] d.comment := by
  unfold validateSubmissionData
  rw [checkComment_append, checkTariff_append, checkAddress_append,
    checkPhone_append isMob (checkName [] d.name)]
  try simp [List.append_assoc]

theorem connCheckName_append (e : List String) (v : JSValue) :
    connCheckName e v = e ++ connCheckName [] v := by
  unfold connCheckName
  split <;> simp

theorem connCheckPhone_append (e : List String) (v : JSValue) :
    connCheckPhone e v = e ++ connCheckPhone [] v := by
  unfold connCheckPhone
  split <;> simp

theorem connCheckAddress_append (e : List String) (v : JSValue) :
    connCheckAddress e v = e ++ connCheckAddress [] v := by
  unfold connCheckAddress
  split <;> simp

theorem connCheckTariff_append (e : List String) (v : JSValue) :
    connCheckTariff e v = e ++ connCheckTariff [] v := by
  unfold connCheckTariff
  split <;> simp

theorem connCheckComment_append (e : List String) (v : JSValue) :
    connCheckComment e v = e ++ connCheckComment [] v := by
  unfold connCheckComment
  split <;> simp

/-- The `submit-connection-request` inline validation is likewise the
concatenation of five independent per-field checks in declaration order. -/
theorem connErrors_decomp (d : RawData) :
    connErrors d =
      connCheckName [] d.name ++ connCheckPhone [] d.phone ++
      connCheckAddress [] d.address ++ connCheckTariff [] d.tariff ++
      connCheckComment [] d.comment := by
  unfold connErrors
  rw [connCheckComment_append, connCheckTariff_append, connCheckAddress_append,
    connCheckPhone_append (connCheckName [] d.name)]
  try simp [List.append_assoc]

/-! ## Helper lemmas: possible outputs of each check -/

theorem checkName_mem (m : String) (v : JSValue) (h : m ∈ checkName [] v) :
    m = "Имя обязательно для заполнения" ∨ m = "Имя должно быть от 2 до 50 символов" ∨
    m = "Имя содержит недопустимые символы" := by
  unfold checkName at h
  repeat' split at h
  all_goals simp_all

theorem checkPhone_mem (isMob : String → Bool) (m : String) (v : JSValue)
    (h : m ∈ checkPhone isMob [] v) :
    m = "Номер телефона обязателен" ∨ m = "Некорректный номер телефона" := by
  unfold checkPhone at h
  repeat' split at h
  all_goals simp_all

theorem checkAddress_mem (m : String) (v : JSValue) (h : m ∈ checkAddress [] v) :
    m = "Адрес обязателен для заполнения" ∨ m = "Адрес должен быть от 5 до 200 символов" := by
  unfold checkAddress at h
  repeat' split at h
  all_goals simp_all

theorem checkComment_mem (m : String) (v : JSValue) (h : m ∈ checkComment [] v) :
    m = "Комментарий не должен превышать 500 символов" := by
  unfold checkComment at h
  split at h
  all_goals simp_all

/-- A non-string (or falsy) name always yields a violation. -/
theorem checkName_ne_nil_of_not_str (v : JSValue) (h : ∀ s, v ≠ .str s) :
    checkName [] v ≠ [] := by
  cases v <;> simp [checkName, jsTruthy, isStringV]
  exact absurd rfl (h _)

/-- A non-string (or falsy) phone always yields a violation. -/
theorem checkPhone_ne_nil_of_not_str (isMob : String → Bool) (v : JSValue)
    (h : ∀ s, v ≠ .str s) : checkPhone isMob [] v ≠ [] := by
  cases v <;> simp [checkPhone, jsTruthy, isStringV]
  exact absurd rfl (h _)

/-- A non-string (or falsy) address always yields a violation. -/
theorem checkAddress_ne_nil_of_not_str (v : JSValue) (h : ∀ s, v ≠ .str s) :
    checkAddress [] v ≠ [] := by
  cases v <;> simp [checkAddress, jsTruthy, isStringV]
  exact absurd rfl (h _)

/-- An empty violation list forces the three free-text required fields to be
strings. -/
theorem validate_nil_shape (isMob : String → Bool) (d : RawData)
    (h : validateSubmissionData isMob d = []) :
    (∃ s, d.name = .str s) ∧ (∃ s, d.phone = .str s) ∧ (∃ s, d.address = .str s) := by
  rw [validate_decomp] at h
  rcases List.append_eq_nil.mp h with ⟨h4, -⟩
  rcases List.append_eq_nil.mp h4 with ⟨h3, -⟩
  rcases List.append_eq_nil.mp h3 with ⟨h2, ha⟩
  rcases List.append_eq_nil.mp h2 with ⟨hn, hp⟩
  refine ⟨?_, ?_, ?_⟩
  · by_contra hc
    push_neg at hc
    exact checkName_ne_nil_of_not_str d.name (fun s hs => hc s hs) hn
  · by_contra hc
    push_neg at hc
    exact checkPhone_ne_nil_of_not_str isMob d.phone (fun s hs => hc s hs) hp
  · by_contra hc
    push_neg at hc
    exact checkAddress_ne_nil_of_not_str d.address (fun s hs => hc s hs) ha

/-! ## Helper lemmas: trimming template literals -/

theorem jsTrim_data (s : String) : (jsTrim s).data = trimCharList s.data := rfl

theorem dropWhile_append_cons (p : Char → Bool) (xs : List Char) (y : Char)
    (ys : List Char) (h : p y = false) :
    (xs ++ y :: ys).dropWhile p = xs.dropWhile p ++ y :: ys := by
  induction xs with
  | nil => simp [List.dropWhile_cons, h]
  | cons x xs ih =>
    by_cases hx : p x = true
    · simp [List.dropWhile_cons, hx, ih]
    · simp only [Bool.not_eq_true] at hx
      simp [List.dropWhile_cons, hx]

theorem trimCharList_ws_cons (x : Char) (l : List Char) (h : isJsWs x = true) :
    trimCharList (x :: l) = trimCharList l := by
  simp [trimCharList, List.dropWhile_cons, h]

/-- Trimming a template that starts and ends its fixed part with a
non-whitespace character only strips the trailing tail `T`. -/
theorem trimCharList_decomp (d c : Char) (mid T : List Char)
    (hd : isJsWs d = false) (hc : isJsWs c = false) :
    trimCharList (d :: (mid ++ c :: T)) =
      d :: (mid ++ c :: (T.reverse.dropWhile isJsWs).reverse) := by
  unfold trimCharList
  rw [List.dropWhile_cons, hd]
  simp only [Bool.false_eq_true, if_false]
  rw [show (d :: (mid ++ c :: T)).reverse = T.reverse ++ c :: (mid.reverse ++ [d]) by simp]
  rw [dropWhile_append_cons _ _ _ _ hc]
  simp

set_option maxHeartbeats 1000000 in
/-- The `submit-application` message decomposes into a fixed sequence of
labeled lines; only the material after the timestamp label is affected by the
final trim. -/
theorem formatMessage_data (cd : CleanData) (now : String) :
    (formatMessage cd now).data =
      "📥 Новая заявка на подключение:\n👤 Имя: ".data ++ cd.name.data ++
      "\n📱 Номер: ".data ++ cd.phone.data ++
      "\n🏠 Адрес: ".data ++ cd.address.data ++
      "\n📶 Тариф: ".data ++ cd.selectedTariff.data ++
      "\n📝 Комментарий: ".data ++ (strOr cd.comment "Нет").data ++
      "\n🕐 Время:".data ++
      (((" " ++ now ++ "\n  " : String).data).reverse.dropWhile isJsWs).reverse := by
  set mid := " Новая заявка на подключение:\n👤 Имя: ".data ++ cd.name.data ++
      ("\n📱 Номер: ".data ++ (cd.phone.data ++
      ("\n🏠 Адрес: ".data ++ (cd.address.data ++
      ("\n📶 Тариф: ".data ++ (cd.selectedTariff.data ++
      ("\n📝 Комментарий: ".data ++ ((strOr cd.comment "Нет").data ++
      "\n🕐 Время".data)))))))) with hmid
  set T := (" " ++ now ++ "\n  " : String).data with hT
  have hdata : (formatMessage cd now).data =
      trimCharList ('\n' :: ('📥' :: (mid ++ ':' :: T))) := by
    rw [hmid, hT]
    unfold formatMessage
    rw [jsTrim_data]
    congr 1
    simp [String.data_append, List.append_assoc]
  rw [hdata, trimCharList_ws_cons _ _ (by decide),
    trimCharList_decomp _ _ _ _ (by decide) (by decide), hmid, hT]
  simp [String.data_append, List.append_assoc]

set_option maxHeartbeats 1000000 in
/-- The `submit-connection-request` message decomposes into a fixed sequence
of labeled lines (the template lines are indented by two spaces); only the
material after the timestamp label is affected by the final trim. -/
theorem formatConnMessage_data (cd : ConnCleanData) (now : String) :
    (formatConnMessage cd now).data =
      "📥 Новая заявка на подключение:\n  👤 Имя: ".data ++ cd.name.data ++
      "\n  📱 Номер: ".data ++ cd.phone.data ++
      "\n  🏠 Адрес: ".data ++ cd.address.data ++
      "\n  📶 Тариф: ".data ++ cd.tariff.data ++
      "\n  📝 Комментарий: ".data ++ cd.comment.data ++
      "\n  🕐 Время:".data ++
      (((" " ++ now ++ "\n  " : String).data).reverse.dropWhile isJsWs).reverse := by
  set mid := " Новая заявка на подключение:\n  👤 Имя: ".data ++ cd.name.data ++
      ("\n  📱 Номер: ".data ++ (cd.phone.data ++
      ("\n  🏠 Адрес: ".data ++ (cd.address.data ++
      ("\n  📶 Тариф: ".data ++ (cd.tariff.data ++
      ("\n  📝 Комментарий: ".data ++ (cd.comment.data ++
      "\n  🕐 Время".data)))))))) with hmid
  set T := (" " ++ now ++ "\n  " : String).data with hT
  have hdata : (formatConnMessage cd now).data =
      trimCharList ('\n' :: (' ' :: (' ' :: ('📥' :: (mid ++ ':' :: T))))) := by
    rw [hmid, hT]
    unfold formatConnMessage
    rw [jsTrim_data]
    congr 1
    simp [String.data_append, List.append_assoc]
  rw [hdata, trimCharList_ws_cons _ _ (by decide), trimCharList_ws_cons _ _ (by decide),
    trimCharList_ws_cons _ _ (by decide),
    trimCharList_decomp _ _ _ _ (by decide) (by decide), hmid, hT]
  simp [String.data_append, List.append_assoc]

/-! ## Helper lemmas: sanitization is a retraction

The hypotheses describe the markup neutralizer: it is idempotent, it sends
the empty string to itself, and its output on a trimmed string is trimmed. -/

theorem jsTrim_empty : jsTrim "" = "" := rfl

theorem xssOptTrim_roundtrip (xssF : String → String)
    (hId : ∀ s, xssF (xssF s) = xssF s)
    (hT : ∀ s, jsTrim (xssF (jsTrim s)) = xssF (jsTrim s))
    (hE : xssF "" = "")
    (v : JSValue) (r : String) (h : xssOptTrim xssF v = .ok r) :
    xssOptTrim xssF (.str r) = .ok r := by
  cases v <;> simp [xssOptTrim] at h ⊢
  case undef =>
    subst h
    rw [hE, jsTrim_empty, hE]
  case null =>
    subst h
    rw [hE, jsTrim_empty, hE]
  case str s =>
    subst h
    rw [hT s, hId]

theorem xssComment_roundtrip (xssF : String → String)
    (hId : ∀ s, xssF (xssF s) = xssF s)
    (hT : ∀ s, jsTrim (xssF (jsTrim s)) = xssF (jsTrim s))
    (hE : xssF "" = "")
    (v : JSValue) (r : String) (h : xssComment xssF v = .ok r) :
    xssComment xssF (.str r) = .ok r := by
  cases v <;> simp [xssComment] at h ⊢
  case undef =>
    subst h
    simp [xssComment]
  case null =>
    subst h
    simp [xssComment]
  case boolV b =>
    cases b <;> simp_all [xssComment]
  case numV n =>
    by_cases hn : n = 0 <;> simp_all [xssComment]
  case str s =>
    by_cases hs : s = ""
    · subst hs
      simp at h
      subst h
      simp [xssComment]
    · simp [hs] at h
      subst h
      try simp [xssComment]
      by_cases hr : xssF (jsTrim s) = ""
      · simp [hr]
      · simp [hr, hT s, hId]

theorem sanitizeData_roundtrip (xssF : String → String)
    (hId : ∀ s, xssF (xssF s) = xssF s)
    (hT : ∀ s, jsTrim (xssF (jsTrim s)) = xssF (jsTrim s))
    (hE : xssF "" = "")
    (x : RawData) (c : CleanData) (h : sanitizeData xssF x = .ok c) :
    sanitizeData xssF c.toRaw = .ok c := by
  unfold sanitizeData at h ⊢
  cases hn : xssOptTrim xssF x.name with
  | error e => rw [hn] at h; simp [Bind.bind, Except.bind] at h
  | ok n =>
  rw [hn] at h
  cases hp : xssOptTrim xssF x.phone with
  | error e => rw [hp] at h; simp [Bind.bind, Except.bind] at h
  | ok p =>
  rw [hp] at h
  cases ha : xssOptTrim xssF x.address with
  | error e => rw [ha] at h; simp [Bind.bind, Except.bind] at h
  | ok a =>
  rw [ha] at h
  cases ht : xssOptTrim xssF x.selectedTariff with
  | error e => rw [ht] at h; simp [Bind.bind, Except.bind] at h
  | ok t =>
  rw [ht] at h
  cases hc : xssComment xssF x.comment with
  | error e => rw [hc] at h; simp [Bind.bind, Except.bind] at h
  | ok cm =>
  rw [hc] at h
  simp [Bind.bind, Except.bind, Pure.pure, Except.pure] at h
  subst h
  simp only [CleanData.toRaw]
  rw [xssOptTrim_roundtrip xssF hId hT hE _ _ hn,
    xssOptTrim_roundtrip xssF hId hT hE _ _ hp,
    xssOptTrim_roundtrip xssF hId hT hE _ _ ha,
    xssOptTrim_roundtrip xssF hId hT hE _ _ ht,
    xssComment_roundtrip xssF hId hT hE _ _ hc]
  rfl

/-! ## Helper lemmas: the rate limiter -/

theorem limiterStep_fst (w m : Nat) (st : LimiterState) (t ip : Nat) :
    (limiterStep w m st t ip).1 =
      decide ((if st.resetAt ip ≤ t then 0 else st.counts ip) + 1 ≤ m) := rfl

theorem limiterStep_counts_self (w m : Nat) (st : LimiterState) (t ip : Nat) :
    ((limiterStep w m st t ip).2).counts ip =
      (if st.resetAt ip ≤ t then 0 else st.counts ip) + 1 := by
  simp [limiterStep]

theorem limiterStep_resetAt_self (w m : Nat) (st : LimiterState) (t ip : Nat) :
    ((limiterStep w m st t ip).2).resetAt ip =
      if st.resetAt ip ≤ t then t + w else st.resetAt ip := by
  simp [limiterStep]

theorem limiterStep_counts_le (w m : Nat) (st : LimiterState) (t ip j : Nat) :
    ((limiterStep w m st t ip).2).counts j ≤ st.counts j + 1 := by
  by_cases hj : j = ip
  · subst hj
    simp [limiterStep]
    split <;> omega
  · simp [limiterStep, hj]

theorem limiterStep_fst_of_lt (w m : Nat) (st : LimiterState) (t ip : Nat)
    (h : st.counts ip < m) : (limiterStep w m st t ip).1 = true := by
  simp [limiterStep]
  split <;> omega

/-- When both limiters let a request through, the handler runs. -/
theorem route_pass (isMob : String → Bool) (xssF : String → String) (cfg : Config)
    (tr : Transport) (now : String) (st : GateState) (t ip : Nat) (body : RawData)
    (h1 : st.general.counts ip < 5)
    (h2 : (if st.submit.resetAt ip ≤ t then 0 else st.submit.counts ip) + 1 ≤ 3) :
    submitApplicationRoute isMob xssF cfg tr now st t ip body =
      ({ general := (limiterStep generalWindow 5 st.general t ip).2,
         submit := (limiterStep submitWindow 3 st.submit t ip).2 },
       ⟨(submitApplicationHandler isMob xssF cfg tr now body).resp, true,
        (submitApplicationHandler isMob xssF cfg tr now body).sends⟩) := by
  unfold submitApplicationRoute
  rw [limiterStep_fst_of_lt _ _ _ _ _ h1, limiterStep_fst, decide_eq_true h2]
  simp

/-- When the submit limiter rejects (and the general one does not), the route
answers the configured message without running the handler. -/
theorem route_reject (isMob : String → Bool) (xssF : String → String) (cfg : Config)
    (tr : Transport) (now : String) (st : GateState) (t ip : Nat) (body : RawData)
    (h1 : st.general.counts ip < 5)
    (h2 : ¬ ((if st.submit.resetAt ip ≤ t then 0 else st.submit.counts ip) + 1 ≤ 3)) :
    submitApplicationRoute isMob xssF cfg tr now st t ip body =
      ({ general := (limiterStep generalWindow 5 st.general t ip).2,
         submit := (limiterStep submitWindow 3 st.submit t ip).2 },
       ⟨.rateLimited "Превышен лимит заявок. Попробуйте через час.", false, []⟩) := by
  unfold submitApplicationRoute
  rw [limiterStep_fst_of_lt _ _ _ _ _ h1, limiterStep_fst, decide_eq_false h2]
  simp

/-! ## Claim C6: delivery-error details -/

/-- `s` occurs verbatim inside `m`. -/
def CapturedIn (s m : String) : Prop :=
  ∃ a b : List Char, m.data = a ++ s.data ++ b

/-- The policy the spec ascribes to every delivery path: a present (truthy)
descriptive field is captured into the detail, and otherwise one fixed
generic detail is used. -/
def DetailPolicy (f : Option String → String) : Prop :=
  (∀ s, s ≠ "" → CapturedIn s (f (some s))) ∧
  (∃ g, ∀ d, optTruthy d = false → f d = g)

/-- Claim C6, counterexample: the `request-callback` delivery path does not
use a generic detail when the descriptive field is absent — an absent field
is interpolated as the text `undefined`, and an empty-string field yields yet
another detail, so no single generic fallback exists. -/
theorem claim_C6_counterexample : ¬ DetailPolicy requestCallbackDetail := by
  rintro ⟨-, g, hg⟩
  have h1 : requestCallbackDetail none = g := hg none rfl
  have h2 : requestCallbackDetail (some "") = g := hg (some "") (by decide)
  rw [← h2] at h1
  exact absurd h1 (by decide)

/-- Claim C6, amended: in the `sendToTelegram`, `request-ngn-callback`,
`request-wimax` and `submit-connection-request` delivery paths, a present
(truthy) descriptive field is captured into the delivery-error detail and a
fixed generic detail is used otherwise; in the `request-callback` path the
field is likewise captured when present, but an absent field is interpolated
as the text `undefined` instead of a generic fallback. -/
theorem claim_C6_theorem :
    DetailPolicy sendToTelegramDetail ∧ DetailPolicy ngnDetail ∧
    DetailPolicy wimaxDetail ∧ DetailPolicy connDetail ∧
    (∀ s, s ≠ "" → CapturedIn s (requestCallbackDetail (some s))) ∧
    requestCallbackDetail none = "Telegram API error: undefined" := by
  refine ⟨⟨?_, ?_⟩, ⟨?_, ?_⟩, ⟨?_, ?_⟩, ⟨?_, ?_⟩, ?_, rfl⟩
  · intro s hs
    exact ⟨"Telegram API error: ".data, [], by
      simp [sendToTelegramDetail, strOr, hs, String.data_append]⟩
  · refine ⟨"Telegram API error: Unknown error", ?_⟩
    intro d hd
    match d with
    | none => rfl
    | some s =>
      simp [optTruthy] at hd
      subst hd
      rfl
  · intro s hs
    exact ⟨[], [], by simp [ngnDetail, strOr, hs]⟩
  · refine ⟨"Telegram API error", ?_⟩
    intro d hd
    match d with
    | none => rfl
    | some s =>
      simp [optTruthy] at hd
      subst hd
      rfl
  · intro s hs
    exact ⟨[], [], by simp [wimaxDetail, strOr, hs]⟩
  · refine ⟨"Telegram API error", ?_⟩
    intro d hd
    match d with
    | none => rfl
    | some s =>
      simp [optTruthy] at hd
      subst hd
      rfl
  · intro s hs
    exact ⟨[], [], by simp [connDetail, strOr, hs]⟩
  · refine ⟨"Ошибка Telegram API", ?_⟩
    intro d hd
    match d with
    | none => rfl
    | some s =>
      simp [optTruthy] at hd
      subst hd
      rfl
  · intro s hs
    exact ⟨"Telegram API error: ".data, [], by
      simp [requestCallbackDetail, String.data_append]⟩

/-- Witness for C6 at a concrete payload: the ngn path captures the present
descriptive field `boom`. -/
theorem claim_C6_witness : CapturedIn "boom" (ngnDetail (some "boom")) :=
  claim_C6_theorem.2.1.1 "boom" (by decide)

/-! ## Claim C7: sanitization is idempotent -/

/-- Claim C7: for every raw submission record, applying `sanitizeData` to its
own output (feeding the sanitized record back as a request body) returns the
same record — under the assumptions on the external markup neutralizer
(idempotent, fixes the empty string, and trimmed outputs on trimmed inputs)
that the spec's "markup-neutralization behavior on already-clean input"
describes. Inputs on which sanitization faults propagate the same fault. -/
theorem claim_C7_theorem (xssF : String → String)
    (hId : ∀ s, xssF (xssF s) = xssF s)
    (hT : ∀ s, jsTrim (xssF (jsTrim s)) = xssF (jsTrim s))
    (hE : xssF "" = "") (x : RawData) :
    (sanitizeData xssF x).bind (fun c => sanitizeData xssF c.toRaw) =
      sanitizeData xssF x := by
  cases h : sanitizeData xssF x with
  | error e => rfl
  | ok c => exact sanitizeData_roundtrip xssF hId hT hE x c h

/-- Witness for C7 at a concrete neutralizer and record. -/
theorem claim_C7_witness :
    (sanitizeData (fun _ => "") ⟨.str " Иван ", .str "+7999", .undef, .str "X", .undef, .str " привет "⟩).bind
        (fun c => sanitizeData (fun _ => "") c.toRaw) =
      sanitizeData (fun _ => "") ⟨.str " Иван ", .str "+7999", .undef, .str "X", .undef, .str " привет "⟩ :=
  claim_C7_theorem (fun _ => "") (fun _ => rfl) (fun _ => rfl) rfl _

/-! ## Claim C5: request-callback with valid phone but no credentials -/

/-- Claim C5: for every POST to `request-callback` carrying a valid phone
(a string with at least 9 digits) while the messaging credentials are unset,
the response is the 500 `{success:false, error:...}` "not configured" body
and no outbound message is attempted. -/
theorem claim_C5_theorem (xssF : String → String) (cfg : Config) (tr : Transport)
    (body : RawData) (s : String) (hs : body.phone = .str s) (hne : s ≠ "")
    (hd : 9 ≤ digitCount s) (hcfg : cfg.unconfigured = true) :
    requestCallbackHandler xssF cfg tr body =
      ⟨.serverError "Не настроены Telegram данные", [], none⟩ ∧
    (requestCallbackHandler xssF cfg tr body).resp.statusOf = 500 ∧
    (requestCallbackHandler xssF cfg tr body).resp.successOf = false ∧
    (requestCallbackHandler xssF cfg tr body).sends = [] := by
  have h : requestCallbackHandler xssF cfg tr body =
      ⟨.serverError "Не настроены Telegram данные", [], none⟩ := by
    unfold requestCallbackHandler
    rw [hs]
    have : ¬ (s = "" || digitCount s < 9) = true := by
      simp [hne]
      omega
    simp only [this, if_false, Bool.not_eq_true]
    rw [hcfg]
    simp
  refine ⟨h, ?_, ?_, ?_⟩ <;> rw [h] <;> rfl

/-- Witness for C5 at a concrete request. -/
theorem claim_C5_witness :
    requestCallbackHandler (fun s => s) ⟨none, some "c"⟩ .success
        { phone := .str "+7 (999) 123-45-67" } =
      ⟨.serverError "Не настроены Telegram данные", [], none⟩ :=
  (claim_C5_theorem (fun s => s) ⟨none, some "c"⟩ .success
    { phone := .str "+7 (999) 123-45-67" } "+7 (999) 123-45-67" rfl (by decide)
    (by decide) (by decide)).1

/-! ## Claim C4: configuration guard ordering -/

/-- Claim C4, counterexample: with the messaging configuration absent, a
request to `request-callback` with an invalid (absent) phone is answered by
the 400 validation response, not by the 500 "not configured" response — so
the configuration guard does not run before validation. -/
theorem claim_C4_counterexample :
    (requestCallbackHandler (fun s => s) ⟨none, none⟩ .success { phone := .undef }).resp =
      .badRequest "Введите корректный номер телефона" [] ∧
    (requestCallbackHandler (fun s => s) ⟨none, none⟩ .success { phone := .undef }).resp.statusOf
      = 400 := by
  constructor <;> rfl

/-- Claim C4, amended: when the messaging configuration is absent, the
handlers with an explicit guard (`request-callback`,
`submit-connection-request`) answer 500 "not configured" with zero sends only
after validation has passed — a request that fails validation still gets 400
— and `submit-application` has no guard before validation either: it
discovers the missing configuration inside the delivery step, answering the
generic 500 with zero sends. -/
theorem claim_C4_theorem :
    (∀ (xssF : String → String) (cfg : Config) (tr : Transport) (body : RawData)
      (s : String), body.phone = .str s → s ≠ "" → 9 ≤ digitCount s →
      cfg.unconfigured = true →
      requestCallbackHandler xssF cfg tr body =
        ⟨.serverError "Не настроены Telegram данные", [], none⟩) ∧
    (∀ (xssF : String → String) (cfg : Config) (tr : Transport) (body : RawData),
      body.phone = .undef →
      requestCallbackHandler xssF cfg tr body =
        ⟨.badRequest "Введите корректный номер телефона" [], [], none⟩) ∧
    (∀ (xssF : String → String) (cfg : Config) (tr : Transport) (now : String)
      (body : RawData) (c : ConnCleanData), connErrors body = [] →
      connClean xssF body = .ok c → cfg.unconfigured = true →
      submitConnectionHandler xssF cfg tr now body =
        ⟨.serverError "Telegram токен или чат-ID не настроены", [], none⟩) ∧
    (∀ (isMob : String → Bool) (xssF : String → String) (cfg : Config)
      (tr : Transport) (now : String) (body : RawData) (c : CleanData),
      validateSubmissionData isMob body = [] → sanitizeData xssF body = .ok c →
      cfg.unconfigured = true →
      submitApplicationHandler isMob xssF cfg tr now body =
        ⟨.serverError "Произошла ошибка при отправке заявки. Попробуйте позже.", [],
          some "Telegram credentials not configured"⟩) := by
  refine ⟨?_, ?_, ?_, ?_⟩
  · intro xssF cfg tr body s hs hne hd hcfg
    unfold requestCallbackHandler
    rw [hs]
    have : ¬ (s = "" || digitCount s < 9) = true := by
      simp [hne]
      omega
    simp only [this, if_false, Bool.not_eq_true]
    rw [hcfg]
    simp
  · intro xssF cfg tr body hp
    unfold requestCallbackHandler
    rw [hp]
  · intro xssF cfg tr now body c herr hclean hcfg
    unfold submitConnectionHandler
    rw [herr, hclean, hcfg]
    simp
  · intro isMob xssF cfg tr now body c hval hsan hcfg
    unfold submitApplicationHandler
    rw [hval, hsan]
    unfold sendToTelegram
    rw [hcfg]
    simp

/-- Witness for C4 at a concrete unconfigured process and valid request. -/
theorem claim_C4_witness :
    requestCallbackHandler (fun s => s) ⟨some "", some "c"⟩ .success
        { phone := .str "79991234567" } =
      ⟨.serverError "Не настроены Telegram данные", [], none⟩ :=
  claim_C4_theorem.1 (fun s => s) ⟨some "", some "c"⟩ .success
    { phone := .str "79991234567" } "79991234567" rfl (by decide) (by decide) (by decide)

/-! ## Claim C2: required fields and fully valid inputs -/

theorem jsLength_ne_empty (n : String) (h : 1 ≤ jsLength n) : n ≠ "" := by
  intro he
  subst he
  simp [jsLength] at h

theorem checkName_nil (n : String) (h2 : 2 ≤ jsLength n) (h50 : jsLength n ≤ 50)
    (hre : nameRegexTest n = true) : checkName [] (.str n) = [] := by
  have hne : n ≠ "" := jsLength_ne_empty n (by omega)
  simp [checkName, jsTruthy, isStringV, hne, hre]
  omega

theorem checkPhone_nil (isMob : String → Bool) (p : String) (hne : p ≠ "")
    (hm : isMob (cleanPhone p) = true) : checkPhone isMob [] (.str p) = [] := by
  simp [checkPhone, jsTruthy, isStringV, hne, hm]

theorem checkAddress_nil (a : String) (h5 : 5 ≤ jsLength a) (h200 : jsLength a ≤ 200) :
    checkAddress [] (.str a) = [] := by
  have hne : a ≠ "" := jsLength_ne_empty a (by omega)
  simp [checkAddress, jsTruthy, isStringV, hne]
  omega

theorem checkTariff_nil (t : String) (hne : t ≠ "") : checkTariff [] (.str t) = [] := by
  simp [checkTariff, jsTruthy, hne]

theorem checkComment_nil (v : JSValue)
    (h : v = .undef ∨ ∃ s, v = .str s ∧ jsLength s ≤ 500) : checkComment [] v = [] := by
  rcases h with h | ⟨s, rfl, hlen⟩
  · subst h
    rfl
  · simp [checkComment]
    omega

/-- Claim C2: (a) whenever a required field (`name`, `phone`, `address`,
`selectedTariff`) is missing from the request body, `validateSubmissionData`
returns a list containing the violation naming that field; (b) whenever the
body satisfies every constraint of spec §4.1 (name a 2–50-unit string over the
letter class, phone a non-empty string accepted by the phone library on its
cleaned form, address a 5–200-unit string, tariff a non-empty string, comment
absent or a string of at most 500 units), it returns the empty list. -/
theorem claim_C2_theorem :
    (∀ (isMob : String → Bool) (d : RawData),
      (d.name = .undef →
        "Имя обязательно для заполнения" ∈ validateSubmissionData isMob d) ∧
      (d.phone = .undef →
        "Номер телефона обязателен" ∈ validateSubmissionData isMob d) ∧
      (d.address = .undef →
        "Адрес обязателен для заполнения" ∈ validateSubmissionData isMob d) ∧
      (d.selectedTariff = .undef →
        "Выберите корректный тариф" ∈ validateSubmissionData isMob d)) ∧
    (∀ (isMob : String → Bool) (d : RawData) (n p a t : String),
      d.name = .str n → 2 ≤ jsLength n → jsLength n ≤ 50 → nameRegexTest n = true →
      d.phone = .str p → p ≠ "" → isMob (cleanPhone p) = true →
      d.address = .str a → 5 ≤ jsLength a → jsLength a ≤ 200 →
      d.selectedTariff = .str t → t ≠ "" →
      (d.comment = .undef ∨ ∃ s, d.comment = .str s ∧ jsLength s ≤ 500) →
      validateSubmissionData isMob d = []) := by
  constructor
  · intro isMob d
    refine ⟨?_, ?_, ?_, ?_⟩ <;> intro h <;> rw [validate_decomp, h] <;>
      simp [List.mem_append] <;>
      simp [checkName, checkPhone, checkAddress, checkTariff, jsTruthy, isStringV]
  · intro isMob d n p a t hn h2 h50 hre hp hpne hm ha h5 h200 ht htne hc
    rw [validate_decomp, hn, hp, ha, ht,
      checkName_nil n h2 h50 hre, checkPhone_nil isMob p hpne hm,
      checkAddress_nil a h5 h200, checkTariff_nil t htne, checkComment_nil d.comment hc]
    rfl

/-- Witness for C2 at a concrete valid body and a concrete phone library. -/
theorem claim_C2_witness :
    validateSubmissionData (fun _ => true)
      { name := .str "Иван Иванов", phone := .str "+79991234567",
        address := .str "г. Москва, ул. Ленина, 1", selectedTariff := .str "Стандарт",
        tariff := .undef, comment := .undef } = [] :=
  claim_C2_theorem.2 (fun _ => true) _ "Иван Иванов" "+79991234567"
    "г. Москва, ул. Ленина, 1" "Стандарт" rfl (by decide) (by decide) (by decide)
    rfl (by decide) rfl rfl (by decide) (by decide) rfl (by decide) (Or.inl rfl)

/-! ## Claim C9: truthy non-string tariff -/

/-- Claim C9: a truthy non-string `selectedTariff` (for example a number)
produces no tariff violation — the validator only checks truthiness — yet a
request whose remaining fields validate then ends in the generic 500 state
rather than 400, because `sanitizeData`'s `.trim()` call faults on the
non-string value and the handler's `try/catch` swallows the `TypeError`,
before any send is attempted. -/
theorem claim_C9_theorem (isMob : String → Bool) (xssF : String → String)
    (cfg : Config) (tr : Transport) (now : String) (d : RawData)
    (htr : jsTruthy d.selectedTariff = true) (hns : isStringV d.selectedTariff = false) :
    ("Выберите корректный тариф" ∉ validateSubmissionData isMob d) ∧
    (validateSubmissionData isMob d = [] →
      submitApplicationHandler isMob xssF cfg tr now d =
        ⟨.serverError "Произошла ошибка при отправке заявки. Попробуйте позже.", [],
          some "TypeError: trim is not a function"⟩) := by
  constructor
  · intro hmem
    rw [validate_decomp] at hmem
    have htf : checkTariff [] d.selectedTariff = [] := by simp [checkTariff, htr]
    rw [htf] at hmem
    simp only [List.append_nil, List.mem_append] at hmem
    rcases hmem with ((h | h) | h) | h
    · rcases checkName_mem _ _ h with h' | h' | h' <;> exact absurd h' (by decide)
    · rcases checkPhone_mem isMob _ _ h with h' | h' <;> exact absurd h' (by decide)
    · rcases checkAddress_mem _ _ h with h' | h' <;> exact absurd h' (by decide)
    · exact absurd (checkComment_mem _ _ h) (by decide)
  · intro hval
    obtain ⟨⟨n, hn⟩, ⟨p, hp⟩, ⟨a, ha⟩⟩ := validate_nil_shape isMob d hval
    have hsan : sanitizeData xssF d = .error "TypeError: trim is not a function" := by
      unfold sanitizeData
      rw [hn, hp, ha]
      cases hv : d.selectedTariff with
      | str s => rw [hv] at hns; simp [isStringV] at hns
      | undef => rw [hv] at htr; simp [jsTruthy] at htr
      | null => rw [hv] at htr; simp [jsTruthy] at htr
      | numV m => simp [xssOptTrim, Bind.bind, Except.bind]
      | boolV b => simp [xssOptTrim, Bind.bind, Except.bind]
    unfold submitApplicationHandler
    rw [hval, hsan]
    rfl

/-- Witness for C9 at a concrete request whose tariff is the number `1`. -/
theorem claim_C9_witness :
    submitApplicationHandler (fun _ => true) (fun s => s) ⟨some "t", some "c"⟩
        .success "T"
        { name := .str "Иван", phone := .str "+79991234567",
          address := .str "Москва, Ленина 1", selectedTariff := .numV 1,
          tariff := .undef, comment := .undef } =
      ⟨.serverError "Произошла ошибка при отправке заявки. Попробуйте позже.", [],
        some "TypeError: trim is not a function"⟩ :=
  (claim_C9_theorem (fun _ => true) (fun s => s) ⟨some "t", some "c"⟩ .success "T"
    { name := .str "Иван", phone := .str "+79991234567",
      address := .str "Москва, Ленина 1", selectedTariff := .numV 1,
      tariff := .undef, comment := .undef } (by decide) (by decide)).2 (by decide)

/-! ## Claim C10: absent or blank comment renders as the placeholder -/

set_option maxHeartbeats 1000000 in
/-- Claim C10: in the `submit-application` pipeline, an absent, empty, or
whitespace-only comment sanitizes to the empty string, and the outbound
notification then renders the literal placeholder line `Нет` in its place
(assuming only that the markup neutralizer fixes the empty string). -/
theorem claim_C10_theorem (xssF : String → String) (hE : xssF "" = "")
    (d : RawData) (now : String) (n p a t : String)
    (hn : d.name = .str n) (hp : d.phone = .str p) (ha : d.address = .str a)
    (ht : d.selectedTariff = .str t)
    (hc : d.comment = .undef ∨ ∃ s, d.comment = .str s ∧ jsTrim s = "") :
    ∃ c, sanitizeData xssF d = .ok c ∧ c.comment = "" ∧
      ∃ x y : List Char, (formatMessage c now).data =
        x ++ ("📝 Комментарий: Нет" : String).data ++ y := by
  have hcm : xssComment xssF d.comment = .ok "" := by
    rcases hc with h | ⟨s, h, htrim⟩
    · rw [h]
      rfl
    · rw [h]
      by_cases hs : s = ""
      · simp [xssComment, hs]
      · simp [xssComment, hs, htrim, hE]
  refine ⟨⟨xssF (jsTrim n), xssF (jsTrim p), xssF (jsTrim a), xssF (jsTrim t), ""⟩, ?_, rfl, ?_⟩
  · unfold sanitizeData
    rw [hn, hp, ha, ht]
    simp [xssOptTrim, Bind.bind, Except.bind, hcm, Pure.pure, Except.pure]
  · refine ⟨"📥 Новая заявка на подключение:\n👤 Имя: ".data ++ (xssF (jsTrim n)).data ++
      "\n📱 Номер: ".data ++ (xssF (jsTrim p)).data ++
      "\n🏠 Адрес: ".data ++ (xssF (jsTrim a)).data ++
      "\n📶 Тариф: ".data ++ (xssF (jsTrim t)).data ++ ['\n'],
      "\n🕐 Время:".data ++
        (((" " ++ now ++ "\n  " : String).data).reverse.dropWhile isJsWs).reverse, ?_⟩
    rw [formatMessage_data]
    simp [strOr, String.data_append, List.append_assoc]

/-- Witness for C10 at a concrete whitespace-only comment. -/
theorem claim_C10_witness :
    ∃ c, sanitizeData (fun s => s)
        { name := .str "Иван", phone := .str "+79991234567",
          address := .str "Москва, Ленина 1", selectedTariff := .str "Стандарт",
          tariff := .undef, comment := .str "   " } = .ok c ∧ c.comment = "" ∧
      ∃ x y : List Char, (formatMessage c "07.10.2025, 12:00:00").data =
        x ++ ("📝 Комментарий: Нет" : String).data ++ y :=
  claim_C10_theorem (fun s => s) rfl _ "07.10.2025, 12:00:00" "Иван" "+79991234567"
    "Москва, Ленина 1" "Стандарт" rfl rfl rfl rfl
    (Or.inr ⟨"   ", rfl, by decide⟩)

/-! ## Claim C8: the formatted message always shows every declared field -/

set_option maxHeartbeats 1000000 in
/-- Claim C8: for every sanitized submission, the formatted notification
contains one labeled line per declared field, in the fixed declaration order
(`submit-application`: name, phone, address, tariff, comment;
`submit-connection-request` likewise), and an absent optional comment still
yields its line, showing the placeholder `Нет` (the connection-request clean
step instead inserts its placeholder `нет` into the record itself). -/
theorem claim_C8_theorem :
    (∀ (c : CleanData) (now : String), ∃ tail : List Char,
      (formatMessage c now).data =
        "📥 Новая заявка на подключение:\n👤 Имя: ".data ++ c.name.data ++
        "\n📱 Номер: ".data ++ c.phone.data ++
        "\n🏠 Адрес: ".data ++ c.address.data ++
        "\n📶 Тариф: ".data ++ c.selectedTariff.data ++
        "\n📝 Комментарий: ".data ++ (strOr c.comment "Нет").data ++
        "\n🕐 Время:".data ++ tail) ∧
    (∀ (c : ConnCleanData) (now : String), ∃ tail : List Char,
      (formatConnMessage c now).data =
        "📥 Новая заявка на подключение:\n  👤 Имя: ".data ++ c.name.data ++
        "\n  📱 Номер: ".data ++ c.phone.data ++
        "\n  🏠 Адрес: ".data ++ c.address.data ++
        "\n  📶 Тариф: ".data ++ c.tariff.data ++
        "\n  📝 Комментарий: ".data ++ c.comment.data ++
        "\n  🕐 Время:".data ++ tail) ∧
    (∀ (c : CleanData) (now : String), c.comment = "" →
      ∃ x y : List Char, (formatMessage c now).data =
        x ++ ("📝 Комментарий: Нет" : String).data ++ y) ∧
    (∀ (xssF : String → String) (body : RawData) (c : ConnCleanData),
      jsTruthy body.comment = false → connClean xssF body = .ok c →
      c.comment = "нет") := by
  refine ⟨?_, ?_, ?_, ?_⟩
  · intro c now
    exact ⟨(((" " ++ now ++ "\n  " : String).data).reverse.dropWhile isJsWs).reverse,
      by rw [formatMessage_data]⟩
  · intro c now
    exact ⟨(((" " ++ now ++ "\n  " : String).data).reverse.dropWhile isJsWs).reverse,
      by rw [formatConnMessage_data]⟩
  · intro c now hc
    refine ⟨"📥 Новая заявка на подключение:\n👤 Имя: ".data ++ c.name.data ++
      "\n📱 Номер: ".data ++ c.phone.data ++
      "\n🏠 Адрес: ".data ++ c.address.data ++
      "\n📶 Тариф: ".data ++ c.selectedTariff.data ++ ['\n'],
      "\n🕐 Время:".data ++
        (((" " ++ now ++ "\n  " : String).data).reverse.dropWhile isJsWs).reverse, ?_⟩
    rw [formatMessage_data]
    simp [hc, strOr, String.data_append, List.append_assoc]
  · intro xssF body c hfalsy hclean
    unfold connClean at hclean
    split at hclean
    · cases hcm : xssComment xssF body.comment with
      | error e =>
        rw [hcm] at hclean
        simp at hclean
      | ok cm =>
        rw [hcm] at hclean
        simp only [hfalsy, Bool.false_eq_true, if_false, Except.ok.injEq] at hclean
        rw [← hclean]
    · exact absurd hclean (by simp)

/-- Witness for C8 at a concrete sanitized record with an empty comment. -/
theorem claim_C8_witness :
    ∃ x y : List Char,
      (formatMessage ⟨"Иван", "+79991234567", "Москва", "Стандарт", ""⟩
        "07.10.2025, 12:00:00").data =
      x ++ ("📝 Комментарий: Нет" : String).data ++ y :=
  claim_C8_theorem.2.2.1 ⟨"Иван", "+79991234567", "Москва", "Стандарт", ""⟩
    "07.10.2025, 12:00:00" rfl

/-! ## Claim C1: violation collection and ordering -/

/-- Claim C1, counterexample: the inline validation of the cited
`request-ngn-callback` endpoint short-circuits. With both `phone` and
`selectedTariff` missing, the handler returns only the phone violation — the
tariff check (whose violation does surface for a valid phone, second
conjunct) is never reached, so not all violations are collected. -/
theorem claim_C1_counterexample :
    ngnHandler (fun s => s) ⟨some "t", some "c"⟩ .success "T"
        { phone := .undef, selectedTariff := .undef } =
      ⟨.badRequest "Введите корректный номер телефона" [], [], none⟩ ∧
    ngnHandler (fun s => s) ⟨some "t", some "c"⟩ .success "T"
        { phone := .str "+79991234567", selectedTariff := .undef } =
      ⟨.badRequest "Выберите тариф" [], [], none⟩ := by
  constructor <;> rfl

/-- Claim C1, amended: the two collecting validators
(`validateSubmissionData` and the inline validation of
`submit-connection-request`) never raise and return the concatenation, in
field declaration order, of five independent per-field checks — no
short-circuiting, all violations collected. The `request-ngn-callback` and
`request-wimax` endpoints instead check their fields in order but return
their first violation alone, regardless of the remaining fields. -/
theorem claim_C1_theorem :
    (∀ (isMob : String → Bool) (d : RawData),
      validateSubmissionData isMob d =
        checkName [] d.name ++ checkPhone isMob [] d.phone ++
        checkAddress [] d.address ++ checkTariff [] d.selectedTariff ++
        checkComment [] d.comment) ∧
    (∀ d : RawData,
      connErrors d =
        connCheckName [] d.name ++ connCheckPhone [] d.phone ++
        connCheckAddress [] d.address ++ connCheckTariff [] d.tariff ++
        connCheckComment [] d.comment) ∧
    (∀ (xssF : String → String) (cfg : Config) (tr : Transport) (now : String)
      (body : RawData), body.phone = .undef →
      ngnHandler xssF cfg tr now body =
        ⟨.badRequest "Введите корректный номер телефона" [], [], none⟩) ∧
    (∀ (xssF : String → String) (cfg : Config) (tr : Transport) (now : String)
      (body : RawData), body.name = .undef →
      wimaxHandler xssF cfg tr now body =
        ⟨.badRequest "Введите корректное имя" [], [], none⟩) := by
  refine ⟨validate_decomp, connErrors_decomp, ?_, ?_⟩
  · intro xssF cfg tr now body hp
    unfold ngnHandler
    rw [hp]
    rfl
  · intro xssF cfg tr now body hn
    unfold wimaxHandler
    rw [hn]
    rfl

/-- Witness for C1: `request-ngn-callback` with a missing phone and any other
tariff value still returns only the phone violation. -/
theorem claim_C1_witness :
    ngnHandler (fun s => s) ⟨some "t", some "c"⟩ .success "T"
        { selectedTariff := .str "Базовый" } =
      ⟨.badRequest "Введите корректный номер телефона" [], [], none⟩ :=
  claim_C1_theorem.2.2.1 (fun s => s) ⟨some "t", some "c"⟩ .success "T"
    { selectedTariff := .str "Базовый" } rfl

/-! ## Claim C3: the submit-application rate limit -/

/-- Claim C3: starting from fresh limiter state, four requests from one
client identity to `/api/submit-application` within the 60-minute submit
window (`max = 3`): the first three pass the gate (the handler, hence the
validator, runs), the fourth is rejected immediately with the configured
rate-limit message, without invoking the validator and with zero outbound
sends; once the window has elapsed, a further request from the same identity
passes the gate again. -/
theorem claim_C3_theorem (isMob : String → Bool) (xssF : String → String)
    (cfg : Config) (tr : Transport) (now : String) (ip : Nat)
    (t1 t2 t3 t4 t5 : Nat) (b1 b2 b3 b4 b5 : RawData)
    (st1 st2 st3 st4 st5 : GateState) (r1 r2 r3 r4 r5 : RouteOutcome)
    (e1 : submitApplicationRoute isMob xssF cfg tr now GateState.init t1 ip b1 = (st1, r1))
    (e2 : submitApplicationRoute isMob xssF cfg tr now st1 t2 ip b2 = (st2, r2))
    (e3 : submitApplicationRoute isMob xssF cfg tr now st2 t3 ip b3 = (st3, r3))
    (e4 : submitApplicationRoute isMob xssF cfg tr now st3 t4 ip b4 = (st4, r4))
    (e5 : submitApplicationRoute isMob xssF cfg tr now st4 t5 ip b5 = (st5, r5))
    (h12 : t1 ≤ t2) (h23 : t2 ≤ t3) (h34 : t3 ≤ t4)
    (hin : t4 < t1 + submitWindow) (hout : t1 + submitWindow ≤ t5) :
    r1.validatorInvoked = true ∧ r2.validatorInvoked = true ∧
    r3.validatorInvoked = true ∧
    r4 = ⟨.rateLimited "Превышен лимит заявок. Попробуйте через час.", false, []⟩ ∧
    r5.validatorInvoked = true := by
  -- request 1 passes both gates
  rw [route_pass isMob xssF cfg tr now GateState.init t1 ip b1
    (by simp [GateState.init, LimiterState.init])
    (by simp [GateState.init, LimiterState.init])] at e1
  injection e1 with hst1 hr1
  have hg1 : (limiterStep generalWindow 5 GateState.init.general t1 ip).2 = st1.general :=
    congrArg GateState.general hst1
  have hs1 : (limiterStep submitWindow 3 GateState.init.submit t1 ip).2 = st1.submit :=
    congrArg GateState.submit hst1
  have hst1g : st1.general.counts ip ≤ 1 := by
    rw [← hg1]
    exact le_trans (limiterStep_counts_le _ _ _ _ _ _)
      (by simp [GateState.init, LimiterState.init])
  have hst1c : st1.submit.counts ip = 1 := by
    rw [← hs1, limiterStep_counts_self]
    simp [GateState.init, LimiterState.init]
  have hst1r : st1.submit.resetAt ip = t1 + submitWindow := by
    rw [← hs1, limiterStep_resetAt_self]
    simp [GateState.init, LimiterState.init]
  -- request 2 passes both gates
  rw [route_pass isMob xssF cfg tr now st1 t2 ip b2 (by omega)
    (by rw [hst1r, hst1c, if_neg (by omega)]; omega)] at e2
  injection e2 with hst2 hr2
  have hg2 : (limiterStep generalWindow 5 st1.general t2 ip).2 = st2.general :=
    congrArg GateState.general hst2
  have hs2 : (limiterStep submitWindow 3 st1.submit t2 ip).2 = st2.submit :=
    congrArg GateState.submit hst2
  have hst2g : st2.general.counts ip ≤ 2 := by
    rw [← hg2]
    exact le_trans (limiterStep_counts_le _ _ _ _ _ _) (by omega)
  have hst2c : st2.submit.counts ip = 2 := by
    rw [← hs2, limiterStep_counts_self, hst1r, if_neg (by omega), hst1c]
  have hst2r : st2.submit.resetAt ip = t1 + submitWindow := by
    rw [← hs2, limiterStep_resetAt_self, hst1r, if_neg (by omega)]
  -- request 3 passes both gates
  rw [route_pass isMob xssF cfg tr now st2 t3 ip b3 (by omega)
    (by rw [hst2r, hst2c, if_neg (by omega)])] at e3
  injection e3 with hst3 hr3
  have hg3 : (limiterStep generalWindow 5 st2.general t3 ip).2 = st3.general :=
    congrArg GateState.general hst3
  have hs3 : (limiterStep submitWindow 3 st2.submit t3 ip).2 = st3.submit :=
    congrArg GateState.submit hst3
  have hst3g : st3.general.counts ip ≤ 3 := by
    rw [← hg3]
    exact le_trans (limiterStep_counts_le _ _ _ _ _ _) (by omega)
  have hst3c : st3.submit.counts ip = 3 := by
    rw [← hs3, limiterStep_counts_self, hst2r, if_neg (by omega), hst2c]
  have hst3r : st3.submit.resetAt ip = t1 + submitWindow := by
    rw [← hs3, limiterStep_resetAt_self, hst2r, if_neg (by omega)]
  -- request 4 is rejected by the submit limiter
  rw [route_reject isMob xssF cfg tr now st3 t4 ip b4 (by omega)
    (by rw [hst3r, hst3c, if_neg (by omega)]; omega)] at e4
  injection e4 with hst4 hr4
  have hg4 : (limiterStep generalWindow 5 st3.general t4 ip).2 = st4.general :=
    congrArg GateState.general hst4
  have hs4 : (limiterStep submitWindow 3 st3.submit t4 ip).2 = st4.submit :=
    congrArg GateState.submit hst4
  have hst4g : st4.general.counts ip ≤ 4 := by
    rw [← hg4]
    exact le_trans (limiterStep_counts_le _ _ _ _ _ _) (by omega)
  have hst4r : st4.submit.resetAt ip = t1 + submitWindow := by
    rw [← hs4, limiterStep_resetAt_self, hst3r, if_neg (by omega)]
  -- request 5, after the window, passes both gates again
  rw [route_pass isMob xssF cfg tr now st4 t5 ip b5 (by omega)
    (by rw [hst4r, if_pos (by omega)]; omega)] at e5
  injection e5 with hst5 hr5
  exact ⟨by rw [← hr1], by rw [← hr2], by rw [← hr3], hr4.symm, by rw [← hr5]⟩

/-- Witness for C3: four immediate requests from identity 0, then one exactly
one window later. -/
theorem claim_C3_witness :
    ((submitApplicationRoute (fun _ => true) (fun s => s) ⟨some "t", some "c"⟩
      .success "T" GateState.init 0 0 {}).2).validatorInvoked = true ∧
    ((submitApplicationRoute (fun _ => true) (fun s => s) ⟨some "t", some "c"⟩
      .success "T" (submitApplicationRoute (fun _ => true) (fun s => s)
        ⟨some "t", some "c"⟩ .success "T" GateState.init 0 0 {}).1 1 0 {}).2).validatorInvoked
      = true ∧
    ((submitApplicationRoute (fun _ => true) (fun s => s) ⟨some "t", some "c"⟩
      .success "T" (submitApplicationRoute (fun _ => true) (fun s => s)
        ⟨some "t", some "c"⟩ .success "T" (submitApplicationRoute (fun _ => true)
          (fun s => s) ⟨some "t", some "c"⟩ .success "T" GateState.init 0 0 {}).1
        1 0 {}).1 2 0 {}).2).validatorInvoked = true ∧
    (submitApplicationRoute (fun _ => true) (fun s => s) ⟨some "t", some "c"⟩
      .success "T" (submitApplicationRoute (fun _ => true) (fun s => s)
        ⟨some "t", some "c"⟩ .success "T" (submitApplicationRoute (fun _ => true)
          (fun s => s) ⟨some "t", some "c"⟩ .success "T" (submitApplicationRoute
            (fun _ => true) (fun s => s) ⟨some "t", some "c"⟩ .success "T"
            GateState.init 0 0 {}).1 1 0 {}).1 2 0 {}).1 3 0 {}).2 =
      ⟨.rateLimited "Превышен лимит заявок. Попробуйте через час.", false, []⟩ ∧
    ((submitApplicationRoute (fun _ => true) (fun s => s) ⟨some "t", some "c"⟩
      .success "T" (submitApplicationRoute (fun _ => true) (fun s => s)
        ⟨some "t", some "c"⟩ .success "T" (submitApplicationRoute (fun _ => true)
          (fun s => s) ⟨some "t", some "c"⟩ .success "T" (submitApplicationRoute
            (fun _ => true) (fun s => s) ⟨some "t", some "c"⟩ .success "T"
            (submitApplicationRoute (fun _ => true) (fun s => s) ⟨some "t", some "c"⟩
              .success "T" GateState.init 0 0 {}).1 1 0 {}).1 2 0 {}).1 3 0 {}).1
      submitWindow 0 {}).2).validatorInvoked = true :=
  claim_C3_theorem (fun _ => true) (fun s => s) ⟨some "t", some "c"⟩ .success "T" 0
    0 1 2 3 submitWindow {} {} {} {} {} _ _ _ _ _ _ _ _ _ _
    rfl rfl rfl rfl rfl (by omega) (by omega) (by omega) (by decide) (by decide)

end TgSend
